import Mathlib

/-!
Verification of the categorization-question partial-credit grading engine of
the canvas-tools repository, as implemented by the two near-duplicate variants
`src/categorization_grader.py` and `src/cat1.py`.

The Python code is shallowly embedded: Python `dict`s over string keys become
association lists with insertion-order update semantics, Python `set`s become
duplicate-free lists (order irrelevant to every use below, which is counting
and membership), Python floats become rationals, fallible code returns
`Except`/`Option`, and the two regular expressions used by the answer parsers
are emulated by explicit deterministic scanners (each regex admits no
observable backtracking, as argued in the comments at the definitions).
-/

/-! ## Python string semantics helpers -/

/-- Python `str.strip()` whitespace set (ASCII part of Python `\s`). -/
def isPySpace (c : Char) : Bool :=
  c = ' ' || c = '\t' || c = '\n' || c = '\r' || c = '\x0b' || c = '\x0c'

/-- Python `str.strip()` on a character list: drop whitespace at both ends. -/
def pyStripL (l : List Char) : List Char :=
  ((l.dropWhile isPySpace).reverse.dropWhile isPySpace).reverse

/-- Python `str.strip()`. -/
def pyStrip (s : String) : String :=
  String.mk (pyStripL s.data)

/-- Python truthiness filter for an optional string: `None` and `""` are falsy. -/
def strTruthy : Option String → Option String
  | some s => if s = "" then none else some s
  | none => none

/-- Python truthiness filter for an optional natural number: `None` and `0` are falsy. -/
def natTruthy : Option Nat → Option Nat
  | some n => if n = 0 then none else some n
  | none => none

/-- Python `a or b` on optional strings, as used before a truthiness test:
`a` if truthy, else `b` verbatim. -/
def pyOrStr (a b : Option String) : Option String :=
  match strTruthy a with
  | some s => some s
  | none => b

/-- Python `max(a, b)` on two numbers. -/
def pyMax (a b : ℚ) : ℚ := if a < b then b else a

/-! ## Python dict as an association list

A Python `dict` with string keys is modelled as a `List (key × value)` whose
keys are distinct; `d[k] = v` updates the value in place when `k` is present
and appends `(k, v)` otherwise, preserving insertion order, exactly as CPython
does. -/

/-- First binding of key `k`, i.e. Python `d.get(k)` (keys are distinct). -/
def alGet {α : Type} (l : List (String × α)) (k : String) : Option α :=
  match l.find? (fun p => p.1 = k) with
  | some p => some p.2
  | none => none

/-- Python `d[k] = v`: replace in place if present, else append. -/
def alInsert {α : Type} (l : List (String × α)) (k : String) (v : α) :
    List (String × α) :=
  match l with
  | [] => [(k, v)]
  | (k1, v1) :: t => if k1 = k then (k, v) :: t else (k1, v1) :: alInsert t k v

/-- Python `d.setdefault(k, []).extend(items)`: extend the list bound to `k`
in place, or append a fresh binding. -/
def alExtend (l : List (String × List String)) (k : String)
    (items : List String) : List (String × List String) :=
  match l with
  | [] => [(k, items)]
  | (k1, v1) :: t =>
    if k1 = k then (k1, v1 ++ items) :: t else (k1, v1) :: alExtend t k items

/-! ## `strip_html` (cat1.py lines 232-233)

`re.sub(r"<[^>]+>", "", s).strip()`: remove every leftmost occurrence of a
`<`, at least one non-`>` character, and the first following `>`; then strip
whitespace.  The scan is emulated with explicit fuel (the input length
suffices, since every step consumes at least one character). -/

/-- Remainder after the first `>` of a candidate tag body, provided at least
one character precedes that `>` (`[^>]+` requires one); `n` counts the
characters already seen inside the tag. -/
def tagRest : List Char → Nat → Option (List Char)
  | [], _ => none
  | c :: t, n => if c = '>' then (if n = 0 then none else some t) else tagRest t (n + 1)

/-- One pass of `re.sub(r"<[^>]+>", "", s)` with explicit fuel. -/
def removeTags : Nat → List Char → List Char
  | 0, l => l
  | _ + 1, [] => []
  | fuel + 1, c :: t =>
    if c = '<' then
      match tagRest t 0 with
      | some rest => removeTags fuel rest
      | none => c :: removeTags fuel t
    else c :: removeTags fuel t

/-- cat1.py `strip_html`: drop HTML tags, then strip whitespace. -/
def stripHtml (s : String) : String :=
  String.mk (pyStripL (removeTags s.data.length s.data))

/-! ## `split_top_level` (cat1.py lines 377-394)

A bracket-depth-aware split: `[` increments the depth, `]` decrements it
(clamped at zero, matching Python `max(0, depth - 1)` via `Nat` subtraction),
and the separator splits only at depth zero.  The depth update happens before
the separator test, as in the source.  A trailing empty buffer is dropped
(`if buf:`), but empty segments produced mid-string are kept. -/

/-- One step of the `split_top_level` scan; the state is
(emitted segments, current buffer, depth). -/
def stlStep (sep : Char) (st : List (List Char) × List Char × Nat) (ch : Char) :
    List (List Char) × List Char × Nat :=
  let depth1 :=
    if ch = '[' then st.2.2 + 1
    else if ch = ']' then st.2.2 - 1
    else st.2.2
  if ch = sep ∧ depth1 = 0 then (st.1 ++ [st.2.1], [], depth1)
  else (st.1, st.2.1 ++ [ch], depth1)

/-- cat1.py `split_top_level`. -/
def splitTopLevel (s : List Char) (sep : Char) : List (List Char) :=
  let st := s.foldl (stlStep sep) ([], [], 0)
  if st.2.1 = [] then st.1 else st.1 ++ [st.2.1]

/-! ## `ANSWER_RE.match` (cat1.py line 355)

`re.compile(r"\s*([^=]+?)\s*=>\s*\[([^\]]*)\]\s*").match(part)`.

Because `[^=]` cannot match `=`, a successful match forces: group 1 (with the
surrounding `\s*`) covers exactly the characters before the first `=`, that
first `=` must exist, be preceded by at least one character and be followed by
`>`; after `=>`, greedy `\s*` must reach a literal `[` (backtracking into the
whitespace run cannot produce `[` since the run contains only whitespace); and
`[^\]]*` captures exactly the characters up to the first subsequent `]`,
which must exist.  The trailing `\s*` always succeeds (`match` is a prefix
match).  Group 1 is returned with its surrounding whitespace still attached:
its only consumer applies `strip_html`, which strips that whitespace anyway,
so the composition is unchanged. -/

/-- Emulation of `ANSWER_RE.match`: `some (group1-with-outer-whitespace,
group2)` on success. -/
def matchAnswerRE (l : List Char) : Option (List Char × List Char) :=
  let pre := l.takeWhile (fun c => c ≠ '=')
  match l.drop pre.length with
  | '=' :: '>' :: tail =>
    if pre.length = 0 then none
    else
      match tail.dropWhile isPySpace with
      | '[' :: t3 =>
        let cap := t3.takeWhile (fun c => c ≠ ']')
        if cap.length < t3.length then some (pre, cap) else none
      | _ => none
  | _ => none

/-! ## `parse_answer_mapping` (cat1.py lines 358-374) -/

/-- Loop body of `parse_answer_mapping`: a segment that fails `ANSWER_RE` is
skipped; otherwise the category label and the item list are extracted and the
mapping is extended. -/
def parsePart (m : List (String × List String)) (part : List Char) :
    List (String × List String) :=
  match matchAnswerRE part with
  | none => m
  | some (g1, g2) =>
    let cat := stripHtml (String.mk g1)
    let itemsCsv := pyStrip (String.mk g2)
    let items :=
      ((splitTopLevel itemsCsv.data ',').map (fun x => stripHtml (String.mk x))).filter
        (fun x => x ≠ "")
    alExtend m cat items

/-- cat1.py `parse_answer_mapping`: category label -> list of item labels. -/
def parseAnswerMapping (s : String) : List (String × List String) :=
  if s = "" then []
  else (splitTopLevel s.data ',').foldl parsePart []


/-! ## `parse_student_answer` (categorization_grader.py lines 307-325)

`re.findall(r"(\w+(?:\([^)]*\))?)\s*=>\s*\[([^\]]*)\]", answer_string)` and
then, for each match, a **naive** `items_str.split(',')`.

The regex admits no observable backtracking: `\w+` is forced maximal (a
shorter run would leave a word character where `(`, whitespace or `=` is
required), the optional greedy `\([^)]*\)` is taken when a `)` follows and the
rest of the pattern then matches (otherwise the engine retries without it),
each greedy `\s*` must land exactly on the next literal, and `[^\]]*` captures
exactly up to the first `]`.  `findall` scans left to right, retrying at the
next character after a failed position and resuming after the end of each
match. -/

/-- Python `\w` (ASCII range; the inputs at issue are ASCII). -/
def isWordChar (c : Char) : Bool := c.isAlphanum || c = '_'

/-- Matches `\s*=>\s*\[([^\]]*)\]` at the head of `r`; on success returns the
capture and the remainder after the closing `]`. -/
def tryRESuffix (r : List Char) : Option (List Char × List Char) :=
  match r.dropWhile isPySpace with
  | '=' :: '>' :: t =>
    match t.dropWhile isPySpace with
    | '[' :: t3 =>
      let cap := t3.takeWhile (fun c => c ≠ ']')
      if cap.length < t3.length then some (cap, t3.drop (cap.length + 1)) else none
    | _ => none
  | _ => none

/-- Matches the full pattern anchored at the head of `l`; on success returns
(group 1, group 2, remainder after the match). -/
def matchCatAt (l : List Char) : Option (List Char × List Char × List Char) :=
  let w := l.takeWhile isWordChar
  if w.length = 0 then none
  else
    match l.drop w.length with
    | '(' :: pr =>
      let inside := pr.takeWhile (fun c => c ≠ ')')
      if inside.length < pr.length then
        match tryRESuffix (pr.drop (inside.length + 1)) with
        | some (g2, rem) => some (w ++ '(' :: (inside ++ [')']), g2, rem)
        | none =>
          match tryRESuffix (l.drop w.length) with
          | some (g2, rem) => some (w, g2, rem)
          | none => none
      else
        match tryRESuffix (l.drop w.length) with
        | some (g2, rem) => some (w, g2, rem)
        | none => none
    | r1 =>
      match tryRESuffix r1 with
      | some (g2, rem) => some (w, g2, rem)
      | none => none

/-- `re.findall` scan.  Every successful match consumes at least one character
(group 1 is nonempty) and a failure advances one character, so fuel equal to
the input length suffices. -/
def findallCat : Nat → List Char → List (List Char × List Char)
  | 0, _ => []
  | _ + 1, [] => []
  | fuel + 1, l@(_ :: t) =>
    match matchCatAt l with
    | some (g1, g2, rem) => (g1, g2) :: findallCat fuel rem
    | none => findallCat fuel t

/-- Python `str.split(sep)`: a naive split that always yields the final
buffer, so `"".split(",") == [""]`. -/
def naiveSplit (sep : Char) (l : List Char) : List (List Char) :=
  let st := l.foldl
    (fun (acc : List (List Char) × List Char) ch =>
      if ch = sep then (acc.1 ++ [acc.2], []) else (acc.1, acc.2 ++ [ch]))
    ([], [])
  st.1 ++ [st.2]

/-- categorization_grader.py `parse_student_answer`: item label -> category
label.  The item list of each match is split naively on commas. -/
def parseStudentAnswer (s : String) : List (String × String) :=
  (findallCat s.data.length s.data).foldl
    (fun placements m =>
      let items := ((naiveSplit ',' m.2).map pyStripL).filter (fun x => x ≠ [])
      items.foldl (fun pl it => alInsert pl (String.mk it) (String.mk m.1)) placements)
    []

/-! ## Scoring engine of categorization_grader.py (lines 48-56 and 327-362) -/

/-- categorization_grader.py `CategorizationQuestion`.  `true_distractors`
models a Python `set`: duplicate-free by construction (`parse_quiz_item`
below), order immaterial to every use (membership and counting). -/
structure CategorizationQuestion where
  item_id : String
  title : String
  points_possible : ℚ
  correct_answers : List (String × String)
  true_distractors : List String
deriving DecidableEq

/-- The first loop of `grade_student`: number of `correct_answers` items the
student placed under their correct category. -/
def countCorrect (q : CategorizationQuestion) (placements : List (String × String)) : Nat :=
  q.correct_answers.countP (fun p => decide (alGet placements p.1 = some p.2))

/-- The two penalty accumulations of `grade_student`: `correct_answers` items
placed under a wrong category (unplaced items are neutral) plus true
distractors placed anywhere. -/
def countMisclassified (q : CategorizationQuestion)
    (placements : List (String × String)) : Nat :=
  q.correct_answers.countP
      (fun p =>
        match alGet placements p.1 with
        | some c => decide (c ≠ p.2)
        | none => false) +
    q.true_distractors.countP (fun d => (alGet placements d).isSome)

/-- categorization_grader.py `grade_student`, returning
(score, correct_count, misclassified_count).  The two loops are rendered as
the counts above over the same collections they iterate. -/
def gradeStudent (q : CategorizationQuestion) (placements : List (String × String)) :
    ℚ × Nat × Nat :=
  let correct := countCorrect q placements
  let mis := countMisclassified q placements
  let totalItems := q.correct_answers.length
  if totalItems = 0 ∨ q.points_possible = 0 then (0, 0, 0)
  else
    (pyMax 0 (((correct : ℚ) - (1 / 2) * (mis : ℚ)) / (totalItems : ℚ) * q.points_possible),
      correct, mis)

/-! ## Scoring engine of cat1.py (`grade_student_entry`, lines 397-479) -/

/-- cat1.py `CategorizationKey`.  `true_distractors` models a Python `set`
(duplicate-free by construction in `build_categorization_key` below). -/
structure CategorizationKey where
  item_id : String
  points_possible : ℚ
  correct_map : List (String × String)
  true_distractors : List String
  title : String
deriving DecidableEq

/-- `student_data` object of a report entry. -/
structure StudentData where
  id : Option Nat := none
  name : Option String := none
  attempt : Option Nat := none
deriving DecidableEq

/-- One element of `item_responses`.  `item_id` models the already
stringified `str(ir.get("item_id"))`. -/
structure ItemResponse where
  item_id : String
  score : Option ℚ := none
  answer : Option String := none
deriving DecidableEq

/-- `summary` object of a report entry. -/
structure Summary where
  score : Option ℚ := none
deriving DecidableEq

/-- One per-student record of the downloaded student-analysis report. -/
structure ReportEntry where
  student_data : Option StudentData := none
  item_responses : List ItemResponse := []
  summary : Option Summary := none
deriving DecidableEq

/-- cat1.py `GradeOutcome`. -/
structure GradeOutcome where
  user_id : Nat
  name : String
  attempt : Nat
  old_q_score : ℚ
  new_q_score : ℚ
  old_total : ℚ
  new_total : ℚ
  correct : Nat
  misclassified : Nat
deriving DecidableEq

/-- The two nested loops flattening `{category: [items]}` into
`student_item_to_cat : item -> category`. -/
def flattenPlacements (m : List (String × List String)) : List (String × String) :=
  m.foldl (fun acc p => p.2.foldl (fun a it => alInsert a it p.1) acc) []

/-- cat1.py `grade_student_entry`.  Returns `none` when the student has no
response for the key's item (reported as skipped).  `float(x or 0.0)` on an
optional number equals `getD 0` (the only falsy float is `0.0`, which the
default reproduces); `int(x or 1)` does not, so `attempt` filters truthiness
explicitly. -/
def gradeStudentEntry (entry : ReportEntry) (key : CategorizationKey) :
    Option GradeOutcome :=
  let student := entry.student_data.getD {}
  match entry.item_responses.find? (fun ir => ir.item_id = key.item_id) with
  | none => none
  | some target =>
    let oldQ := target.score.getD 0
    let oldTotal := ((entry.summary.getD {}).score).getD 0
    let ansStr := (strTruthy target.answer).getD ""
    let sic := flattenPlacements (parseAnswerMapping ansStr)
    let shouldItems := (key.correct_map.map Prod.fst).dedup
    let correct := shouldItems.countP
      (fun l =>
        match strTruthy (alGet sic l) with
        | some c => decide (alGet key.correct_map l = some c)
        | none => false)
    let mis := shouldItems.countP
        (fun l =>
          match strTruthy (alGet sic l) with
          | some c => decide (¬ alGet key.correct_map l = some c)
          | none => false) +
      key.true_distractors.countP (fun d => (alGet sic d).isSome)
    let total := max 1 shouldItems.length
    let newQ :=
      pyMax 0 (((correct : ℚ) - (1 / 2) * (mis : ℚ)) / (total : ℚ) * key.points_possible)
    let oldName := (strTruthy student.name).getD "?"
    some
      { user_id := student.id.getD 0, name := oldName,
        attempt := (natTruthy student.attempt).getD 1,
        old_q_score := oldQ, new_q_score := newQ,
        old_total := oldTotal, new_total := oldTotal - oldQ + newQ,
        correct := correct, misclassified := mis }

/-! ## Per-student step of categorization_grader.py `main` (lines 561-604) -/

/-- categorization_grader.py `StudentGrade`. -/
structure StudentGrade where
  student_id : Nat
  student_name : String
  old_question_grade : ℚ
  new_question_grade : ℚ
  old_total_grade : ℚ
  new_total_grade : ℚ
  correct_count : Nat
  misclassified_count : Nat
deriving DecidableEq

/-- One per-student record as read by `main` (`student_data.id` and
`student_data.name` are accessed unconditionally). -/
structure StudentRecord where
  student_id : Nat
  student_name : String
  summary_score : Option ℚ := none
  item_responses : List ItemResponse := []
deriving DecidableEq

/-- The body of the per-student loop in `main`: find the response whose
`item_id` matches, read the old scores from the report, parse and grade the
answer, and replace the question's contribution inside the total.  Returns
`none` when no response matches (the student is skipped).  The resulting
`new_total_grade` is the grade `main` passes to `update_grade`, i.e. the value
posted to the submissions API. -/
def processStudent (question : CategorizationQuestion) (questionItemId : String)
    (student : StudentRecord) : Option StudentGrade :=
  match student.item_responses.find? (fun r => r.item_id = questionItemId) with
  | none => none
  | some resp =>
    let oldQ := resp.score.getD 0
    let oldTotal := student.summary_score.getD 0
    let answerString := resp.answer.getD ""
    let g := gradeStudent question (parseStudentAnswer answerString)
    some
      { student_id := student.student_id, student_name := student.student_name,
        old_question_grade := oldQ, new_question_grade := g.1,
        old_total_grade := oldTotal, new_total_grade := oldTotal - oldQ + g.1,
        correct_count := g.2.1, misclassified_count := g.2.2 }

/-! ## Key construction of categorization_grader.py (`parse_quiz_item`, lines 258-305)

A quiz item carries three UUID-indexed collections and a scoring list.  Each
scoring element has the category UUID under `id` and the item UUIDs under
`scoring_data.value`.  A UUID missing from `categories`/`distractors` raises
`KeyError` in Python; the embedding returns `Except.error`.  Returning
`.ok none` models the Python `return None` for non-categorization items. -/

/-- One element of `entry.scoring_data.value`: `id` is the category UUID,
`value` the item UUIDs of `scoring_data.value` nested inside it. -/
structure ScoringEntry where
  id : String
  value : List String := []
deriving DecidableEq

/-- The `entry` object of a quiz item, with the fields `parse_quiz_item`
reads (`categories`/`distractors` map UUID to the object's `item_body`). -/
structure QuizEntry where
  interaction_type_slug : Option String := none
  title : Option String := none
  categories : List (String × String) := []
  distractors : List (String × String) := []
  scoring_value : List ScoringEntry := []
deriving DecidableEq

/-- A quiz item as fetched from the items endpoint. -/
structure QuizItem where
  id : String
  entry : QuizEntry := {}
  points_possible : Option ℚ := none
deriving DecidableEq

/-- Inner loop of `parse_quiz_item`: record `correct_answers[item_label] =
category_label` for each referenced item UUID. -/
def addScoringEntry (distractors : List (String × String)) (catLabel : String)
    (st : List (String × String)) :
    List String → Except String (List (String × String))
  | [] => .ok st
  | u :: us =>
    match alGet distractors u with
    | none => .error "KeyError"
    | some body =>
      addScoringEntry distractors catLabel (alInsert st (pyStrip body) catLabel) us

/-- Outer loop of `parse_quiz_item` over the scoring list; the second state
component accumulates `items_to_classify`. -/
def buildCorrectAnswers (categories distractors : List (String × String)) :
    List ScoringEntry → List (String × String) × List String →
    Except String (List (String × String) × List String)
  | [], st => .ok st
  | e :: es, (ca, refd) =>
    match alGet categories e.id with
    | none => .error "KeyError"
    | some catBody =>
      match addScoringEntry distractors (pyStrip catBody) ca e.value with
      | .error msg => .error msg
      | .ok ca2 => buildCorrectAnswers categories distractors es (ca2, refd ++ e.value)

/-- categorization_grader.py `parse_quiz_item`.  `true_distractors` is the
set of stripped labels of item-pool entries never referenced by the scoring
list (modelled as a deduplicated list; Python set order is unspecified and
immaterial). -/
def parseQuizItem (item : QuizItem) : Except String (Option CategorizationQuestion) :=
  if item.entry.interaction_type_slug ≠ some "categorization" then .ok none
  else
    match buildCorrectAnswers item.entry.categories item.entry.distractors
        item.entry.scoring_value ([], []) with
    | .error msg => .error msg
    | .ok (ca, refd) =>
      let td :=
        ((item.entry.distractors.filter (fun p => !refd.contains p.1)).map
          (fun p => pyStrip p.2)).dedup
      .ok (some
        { item_id := item.id, title := item.entry.title.getD "Untitled Question",
          points_possible := item.points_possible.getD 0,
          correct_answers := ca, true_distractors := td })

/-! ## Key construction of cat1.py (`build_categorization_key`, lines 236-289)

This variant expects the scoring list to be flat pairs carrying the item UUID
under `distractor_id`/`item_uuid`/`item_id` and the category UUID under
`category_id`/`category_uuid`; unresolvable pairs are skipped silently, and an
empty resulting `correct_map` raises `RuntimeError`. -/

/-- One element of cat1's `scoring_data.value` list; each field is tried by
the `or`-chains of the source. -/
structure ScoringPair where
  distractor_id : Option String := none
  item_uuid : Option String := none
  item_id : Option String := none
  category_id : Option String := none
  category_uuid : Option String := none
deriving DecidableEq

/-- The `entry` object of a quiz item as read by cat1.py
(`categories`/`distractors` map UUID to the object's `item_body`, with a
missing `item_body` modelled as `""` since the source applies `or ""`). -/
structure Cat1Entry where
  id : Option String := none
  item_body : Option String := none
  title : Option String := none
  points_possible : Option ℚ := none
  categories : List (String × String) := []
  distractors : List (String × String) := []
  scoring : List ScoringPair := []
deriving DecidableEq

/-- A quiz item as read by cat1.py. -/
structure Cat1Item where
  id : Option String := none
  entry : Cat1Entry := {}
deriving DecidableEq

/-- Python `str.replace("\xa0", " ")` (single-character replacement). -/
def replaceNbsp (s : String) : String :=
  String.mk (s.data.map (fun c => if c = '\xA0' then ' ' else c))

/-- The `cat_label_by_uuid` / `item_label_by_uuid` loops: UUID to cleaned
label, keeping only truthy (nonempty) labels. -/
def cat1LabelMap (objs : List (String × String)) : List (String × String) :=
  objs.foldl
    (fun m p =>
      let label := replaceNbsp (stripHtml p.2)
      if label ≠ "" then alInsert m p.1 label else m)
    []

/-- The pair loop of `build_categorization_key`: resolve each scoring pair's
UUIDs through the `or`-chains, skip silently unless both labels resolve, else
record the correct placement and the referenced item UUID. -/
def cat1Pairs (itemLabels catLabels : List (String × String)) :
    List ScoringPair → List (String × String) × List String →
    List (String × String) × List String
  | [], st => st
  | pr :: ps, (cm, refd) =>
    match strTruthy (pyOrStr pr.distractor_id (pyOrStr pr.item_uuid pr.item_id)),
        strTruthy (pyOrStr pr.category_id pr.category_uuid) with
    | some iu, some cu =>
      match strTruthy (alGet itemLabels iu), strTruthy (alGet catLabels cu) with
      | some il, some cl =>
        cat1Pairs itemLabels catLabels ps (alInsert cm il cl, refd ++ [iu])
      | _, _ => cat1Pairs itemLabels catLabels ps (cm, refd)
    | _, _ => cat1Pairs itemLabels catLabels ps (cm, refd)

/-- cat1.py `build_categorization_key`.  Fails (`RuntimeError`) exactly when
the constructed `correct_map` is empty.  `str(x or y)` for the item id yields
the Python spelling `"None"` when both are missing. -/
def buildCategorizationKey (item : Cat1Item) : Except String CategorizationKey :=
  let entry := item.entry
  let itemId := (pyOrStr item.id entry.id).getD "None"
  let title :=
    stripHtml ((pyOrStr entry.item_body (pyOrStr entry.title
      (some ("Item " ++ itemId)))).getD "")
  let catLabels := cat1LabelMap entry.categories
  let itemLabels := cat1LabelMap entry.distractors
  let st := cat1Pairs itemLabels catLabels entry.scoring ([], [])
  let td := ((itemLabels.filter (fun p => !st.2.contains p.1)).map (fun p => p.2)).dedup
  if st.1 = [] then
    .error "Could not build correct_map from scoring_data; structure may differ."
  else
    .ok { item_id := itemId, points_possible := entry.points_possible.getD 0,
          correct_map := st.1, true_distractors := td, title := title }

/-! ## Polling loops

categorization_grader.py `poll_progress` (lines 27-28 and 169-195) polls at
`POLL_INTERVAL = 2.0` seconds and aborts after `REPORT_TIMEOUT = 900`
seconds; cat1.py `poll_progress` (lines 309-321) has defaults
`timeout_sec = 900` and `interval = 3.0` and returns the payload on
`completed` **or** `failed` (its caller raises when the state is not
`completed`).

The loop is modelled over the trace of poll observations: the
`workflow_state` field of each response paired with the value of
`time.time() - start` at that iteration's timeout check.  The outcome records
how many polls were performed. -/

/-- Outcome of the categorization_grader.py polling loop. -/
inductive PollOutcome where
  | completed (polls : Nat)
  | failed (polls : Nat)
  | timedOut (polls : Nat)
  | pending
deriving DecidableEq

/-- Account for one earlier poll. -/
def PollOutcome.bump : PollOutcome → PollOutcome
  | .completed n => .completed (n + 1)
  | .failed n => .failed (n + 1)
  | .timedOut n => .timedOut (n + 1)
  | .pending => .pending

/-- categorization_grader.py line 27. -/
def POLL_INTERVAL : ℚ := 2

/-- categorization_grader.py line 28. -/
def REPORT_TIMEOUT : ℚ := 900

/-- categorization_grader.py `poll_progress` over an observation trace:
return on `completed`, exit fatally on `failed`, exit fatally once the
elapsed wall-clock time exceeds the timeout, otherwise sleep and poll
again. -/
def pollProgress (timeout : ℚ) : List (Option String × ℚ) → PollOutcome
  | [] => .pending
  | (st, elapsed) :: rest =>
    if st = some "completed" then .completed 1
    else if st = some "failed" then .failed 1
    else if timeout < elapsed then .timedOut 1
    else (pollProgress timeout rest).bump

/-- cat1.py `poll_progress` keyword default `timeout_sec`. -/
def cat1PollTimeoutDefault : ℚ := 900

/-- cat1.py `poll_progress` keyword default `interval`. -/
def cat1PollIntervalDefault : ℚ := 3

/-- Outcome of the cat1.py polling loop: the payload is returned on
`completed` or `failed` (the caller then treats non-`completed` as fatal). -/
inductive Cat1PollOutcome where
  | returned (state : Option String) (polls : Nat)
  | timedOut (polls : Nat)
  | pending
deriving DecidableEq

/-- Account for one earlier poll. -/
def Cat1PollOutcome.bump : Cat1PollOutcome → Cat1PollOutcome
  | .returned s n => .returned s (n + 1)
  | .timedOut n => .timedOut (n + 1)
  | .pending => .pending

/-- cat1.py `poll_progress` over an observation trace. -/
def cat1PollProgress (timeout : ℚ) : List (Option String × ℚ) → Cat1PollOutcome
  | [] => .pending
  | (st, elapsed) :: rest =>
    if st = some "completed" ∨ st = some "failed" then .returned st 1
    else if timeout < elapsed then .timedOut 1
    else (cat1PollProgress timeout rest).bump

/-! ## Download-location resolution

categorization_grader.py `resolve_download_url` (lines 197-224) and cat1.py
`resolve_report_download` (lines 324-346).  The file-metadata endpoint
`GET /api/v1/files/{id}` is an oracle `Nat → Option FileMeta`; `none` models a
non-success HTTP status (which `resolve_download_url` swallows, falling to
the fatal branch, while cat1's `_get` raises `CanvasHTTPError`). -/

/-- The nested `results.attachment` object. -/
structure AttachmentObj where
  url : Option String := none
  download_url : Option String := none
deriving DecidableEq

/-- The `results` object of a completed progress payload, with every field
either resolution chain reads. -/
structure ResultsObj where
  url : Option String := none
  attachment : Option AttachmentObj := none
  attachment_id : Option Nat := none
  file_id : Option Nat := none
  id : Option Nat := none
deriving DecidableEq

/-- File metadata returned by the files endpoint. -/
structure FileMeta where
  url : Option String := none
  download_url : Option String := none
  public_url : Option String := none
deriving DecidableEq

/-- Python `a or b` on optional numbers, before a truthiness test. -/
def natOr (a b : Option Nat) : Option Nat :=
  match natTruthy a with
  | some n => some n
  | none => b

/-- categorization_grader.py `resolve_download_url` applied to the `results`
field of the progress payload: (a) direct `url`, (b) nested attachment's
`url`/`download_url`, (c) `attachment_id`/`file_id` resolved through the
files endpoint; else fatal.  In branch (c) a successful lookup returns
`file_data.get('url') or file_data.get('download_url')` verbatim, which is
`None` when the metadata has neither field, hence the `Option` in the ok
value. -/
def resolveDownloadUrl (fileLookup : Nat → Option FileMeta)
    (results : Option ResultsObj) : Except String (Option String) :=
  let res := results.getD {}
  match strTruthy res.url with
  | some u => .ok (some u)
  | none =>
    let att := res.attachment.getD {}
    match strTruthy (pyOrStr att.url att.download_url) with
    | some u => .ok (some u)
    | none =>
      match natTruthy (natOr res.attachment_id res.file_id) with
      | some fid =>
        match fileLookup fid with
        | some meta => .ok (pyOrStr meta.url meta.download_url)
        | none => .error "Could not resolve download URL"
      | none => .error "Could not resolve download URL"

/-- cat1.py configured API base (default `CANVAS_API_BASE`). -/
def cat1ApiBase : String := "https://uncch.instructure.com/api"

/-- cat1.py `resolve_report_download`, reduced to the download location it
fetches: (a) direct `results.url`; otherwise (c) `attachment_id` (or `id`)
resolved through the files endpoint, with a `?download=1` URL fallback when
the metadata has no URL field; there is **no** nested-attachment branch.
Fatal when neither `results.url` nor an attachment id is present. -/
def resolveReportDownload (fileLookup : Nat → Option FileMeta)
    (results : Option ResultsObj) : Except String String :=
  let res := results.getD {}
  match strTruthy res.url with
  | some u => .ok u
  | none =>
    match natTruthy (natOr res.attachment_id res.id) with
    | some fid =>
      match fileLookup fid with
      | none => .error "CanvasHTTPError"
      | some meta =>
        match strTruthy (pyOrStr meta.url (pyOrStr meta.download_url meta.public_url)) with
        | some fUrl => .ok fUrl
        | none => .ok (cat1ApiBase ++ "/v1/files/" ++ toString fid ++ "?download=1")
    | none => .error "No results.url or attachment_id in progress results."

/-! ## Derived views of the scoring specification (for the key-construction
theorems) and concrete inputs used by the worked examples -/

/-- All item UUIDs referenced by the scoring specification (with
multiplicity; only membership is ever used). -/
def referencedUuids (scoring : List ScoringEntry) : List String :=
  (scoring.map ScoringEntry.value).flatten

/-- The item-label -> category-label pairs derived from the scoring
specification by resolving each referenced UUID through the two lookup
tables, in specification order. -/
def specPairs (categories distractors : List (String × String))
    (scoring : List ScoringEntry) : List (String × String) :=
  (scoring.map (fun e =>
    match alGet categories e.id with
    | none => []
    | some cb =>
      e.value.filterMap
        (fun u => (alGet distractors u).map (fun b => (pyStrip b, pyStrip cb))))).flatten

/-- Worked-example question: three classifiable items, one true distractor,
four points. -/
def exQ : CategorizationQuestion :=
  { item_id := "q1", title := "t", points_possible := 4,
    correct_answers := [("i1", "A"), ("i2", "A"), ("i3", "B")],
    true_distractors := ["d1"] }

/-- Worked-example placement: two items correct, one in the wrong category,
no distractor touched. -/
def exPl : List (String × String) := [("i1", "A"), ("i2", "A"), ("i3", "A")]

/-- A categorization item whose scoring specification is empty. -/
def emptyScoringItem : QuizItem :=
  { id := "item1", entry := { interaction_type_slug := some "categorization" } }

/-- The spec's key-construction example as read by `parse_quiz_item`:
categories U1 -> Fruit, item pool U2 -> Apple and U3 -> Rock, scoring
specification assigning U2 to U1. -/
def exQuizItem : QuizItem :=
  { id := "I1",
    entry :=
      { interaction_type_slug := some "categorization",
        categories := [("U1", "Fruit")],
        distractors := [("U2", "Apple"), ("U3", "Rock")],
        scoring_value := [{ id := "U1", value := ["U2"] }] },
    points_possible := some 4 }

/-- The same key-construction example in the flat-pair schema
`build_categorization_key` expects. -/
def exCat1Item : Cat1Item :=
  { id := some "I1",
    entry :=
      { points_possible := some 4,
        categories := [("U1", "Fruit")],
        distractors := [("U2", "Apple"), ("U3", "Rock")],
        scoring := [{ item_id := some "U2", category_id := some "U1" }] } }

/-- A progress `results` payload whose only download location is the nested
attachment object's URL. -/
def attOnlyResults : ResultsObj := { attachment := some { url := some "X" } }

/-- A report entry for the grade-replacement witness: the target item
response has old question score 1 inside an old total of 7 and an empty
answer (all items unplaced). -/
def exReportEntry : ReportEntry :=
  { student_data := some { id := some 42, name := some "Student A" },
    item_responses :=
      [{ item_id := "other", score := some 3, answer := some "X => [y]" },
       { item_id := "q1", score := some 1, answer := some "" }],
    summary := some { score := some 7 } }

/-- The worked-example report entry as read by `main` of
categorization_grader.py. -/
def exStudentRecord : StudentRecord :=
  { student_id := 42, student_name := "Student A",
    summary_score := some 7,
    item_responses :=
      [{ item_id := "other", score := some 3, answer := some "X => [y]" },
       { item_id := "q1", score := some 1,
         answer := some "A => [i1,i2,i3]" }] }

/-- The worked-example key for cat1.py scoring. -/
def exKey : CategorizationKey :=
  { item_id := "q1", points_possible := 4,
    correct_map := [("i1", "A"), ("i2", "A"), ("i3", "B")],
    true_distractors := ["d1"], title := "t" }

/-! # Helper lemmas -/

theorem pyMax_zero_nonneg (x : ℚ) : 0 ≤ pyMax 0 x := by
  unfold pyMax
  split
  · linarith
  · linarith

theorem pyMax_zero_of_nonpos {x : ℚ} (h : x ≤ 0) : pyMax 0 x = 0 := by
  unfold pyMax
  split
  · linarith
  · rfl

theorem pyMax_zero_le {x c : ℚ} (hx : x ≤ c) (hc : 0 ≤ c) : pyMax 0 x ≤ c := by
  unfold pyMax
  split
  · exact hx
  · exact hc

/-- Shape of a successful cat1.py `grade_student_entry` result: the matching
item response exists, the old scores are read from the report, the new score
is the clamped partial-credit formula over the returned counts, and the new
total replaces the question's old contribution inside the old total. -/
theorem gradeStudentEntry_shape (e : ReportEntry) (k : CategorizationKey)
    (oc : GradeOutcome) (h : gradeStudentEntry e k = some oc) :
    ∃ target ∈ e.item_responses, target.item_id = k.item_id ∧
      oc.old_q_score = target.score.getD 0 ∧
      oc.old_total = ((e.summary.getD {}).score).getD 0 ∧
      oc.new_total = oc.old_total - oc.old_q_score + oc.new_q_score ∧
      oc.new_q_score =
        pyMax 0 (((oc.correct : ℚ) - (1 / 2) * (oc.misclassified : ℚ)) /
          ((max 1 ((k.correct_map.map Prod.fst).dedup.length) : ℕ) : ℚ) *
            k.points_possible) ∧
      oc.correct ≤ ((k.correct_map.map Prod.fst).dedup).length := by
  simp only [gradeStudentEntry] at h
  cases hf : e.item_responses.find? (fun ir => ir.item_id = k.item_id) with
  | none => rw [hf] at h; exact absurd h (by simp)
  | some target =>
    rw [hf] at h
    simp only [Option.some.injEq] at h
    subst h
    have hmem := List.mem_of_find?_eq_some hf
    have hid : target.item_id = k.item_id := by
      have := List.find?_some hf
      simpa using this
    exact ⟨target, hmem, hid, rfl, rfl, rfl, rfl, List.countP_le_length _⟩

/-- Shape of a successful per-student step of categorization_grader.py
`main`: the matching item response exists, the old scores are read from the
report, the new question grade and counts come from `grade_student` on the
parsed answer, and the new total replaces the question's old contribution. -/
theorem processStudent_shape (q : CategorizationQuestion) (qid : String)
    (st : StudentRecord) (sg : StudentGrade) (h : processStudent q qid st = some sg) :
    ∃ resp ∈ st.item_responses, resp.item_id = qid ∧
      sg.old_question_grade = resp.score.getD 0 ∧
      sg.old_total_grade = st.summary_score.getD 0 ∧
      sg.new_question_grade = (gradeStudent q (parseStudentAnswer (resp.answer.getD ""))).1 ∧
      sg.correct_count = (gradeStudent q (parseStudentAnswer (resp.answer.getD ""))).2.1 ∧
      sg.misclassified_count = (gradeStudent q (parseStudentAnswer (resp.answer.getD ""))).2.2 ∧
      sg.new_total_grade = sg.old_total_grade - sg.old_question_grade + sg.new_question_grade := by
  simp only [processStudent] at h
  cases hf : st.item_responses.find? (fun r => r.item_id = qid) with
  | none => rw [hf] at h; exact absurd h (by simp)
  | some resp =>
    rw [hf] at h
    simp only [Option.some.injEq] at h
    subst h
    have hmem := List.mem_of_find?_eq_some hf
    have hid : resp.item_id = qid := by
      have := List.find?_some hf
      simpa using this
    exact ⟨resp, hmem, hid, rfl, rfl, rfl, rfl, rfl, rfl⟩

/-! # C1 -/

/-- C1: for every key with non-negative `points_possible` and every student
placement, the score returned by `grade_student` equals
`max(0, (correct - 0.5 * misclassified) / max(1, total) * points_possible)`
where `total` is the number of `correct_answers` entries, `correct` counts
correct placements, and `misclassified` counts wrong placements of
classifiable items plus placed true distractors (unplaced items contribute
neither); and the worked example — 3 classifiable items, 2 placed correctly,
1 in the wrong category, no distractor touched, 4 points — returns score 2
with correct = 2 and misclassified = 1. -/
theorem C1_scoring_formula (q : CategorizationQuestion)
    (p : List (String × String)) (hpts : 0 ≤ q.points_possible) :
    (gradeStudent q p).1 =
      pyMax 0 (((countCorrect q p : ℚ) - (1 / 2) * (countMisclassified q p : ℚ)) /
        ((max 1 q.correct_answers.length : ℕ) : ℚ) * q.points_possible) ∧
    gradeStudent exQ exPl = (2, 2, 1) ∧
    (∀ e k oc, gradeStudentEntry e k = some oc →
      oc.new_q_score =
        pyMax 0 (((oc.correct : ℚ) - (1 / 2) * (oc.misclassified : ℚ)) /
          ((max 1 ((k.correct_map.map Prod.fst).dedup.length) : ℕ) : ℚ) *
            k.points_possible)) := by
  refine ⟨?_, ?_, ?_⟩
  case refine_3 =>
    intro e k oc h
    obtain ⟨t, -, -, -, -, -, hq, -⟩ := gradeStudentEntry_shape e k oc h
    exact hq
  · unfold gradeStudent
    by_cases h : q.correct_answers.length = 0 ∨ q.points_possible = 0
    · rw [if_pos h]
      have hle : ((countCorrect q p : ℚ) - (1 / 2) * (countMisclassified q p : ℚ)) /
          ((max 1 q.correct_answers.length : ℕ) : ℚ) * q.points_possible ≤ 0 := by
        rcases h with h | h
        · have hca : q.correct_answers = [] := List.length_eq_zero.mp h
          have hc : countCorrect q p = 0 := by simp [countCorrect, hca]
          have hm : (0 : ℚ) ≤ (countMisclassified q p : ℚ) := Nat.cast_nonneg _
          rw [hc, h]
          norm_num
          nlinarith [hm, hpts]
        · rw [h, mul_zero]
      show (0 : ℚ) = _
      rw [pyMax_zero_of_nonpos hle]
    · rw [if_neg h]
      push_neg at h
      have hmax : max 1 q.correct_answers.length = q.correct_answers.length :=
        Nat.max_eq_right (Nat.one_le_iff_ne_zero.mpr h.1)
      rw [hmax]
  · simp [gradeStudent, countCorrect, countMisclassified, exQ, exPl, alGet,
      List.countP, List.countP.go, List.find?]
    norm_num [pyMax]

/-- Witness for C1 at the worked example. -/
theorem C1_scoring_formula_witness :
    (gradeStudent exQ exPl).1 =
      pyMax 0 (((2 : ℚ) - (1 / 2) * 1) / 3 * 4) := by
  have h := (C1_scoring_formula exQ exPl (by norm_num [exQ])).1
  rw [h]
  simp [exQ, exPl, countCorrect, countMisclassified, alGet,
    List.countP, List.countP.go, List.find?]

/-! # C2 -/

/-- C2: for every key with non-negative `points_possible` and every
placement, the score returned by the scoring engines lies in
`[0, points_possible]`; in particular any outcome with
`misclassified > 2 * correct` scores exactly 0, never negative.  Stated for
`grade_student` of categorization_grader.py and for `grade_student_entry` of
cat1.py. -/
theorem C2_score_clamped (q : CategorizationQuestion) (p : List (String × String))
    (hpts : 0 ≤ q.points_possible) :
    (0 ≤ (gradeStudent q p).1 ∧ (gradeStudent q p).1 ≤ q.points_possible) ∧
    (2 * (gradeStudent q p).2.1 < (gradeStudent q p).2.2 → (gradeStudent q p).1 = 0) ∧
    (∀ e k oc, 0 ≤ k.points_possible → gradeStudentEntry e k = some oc →
      0 ≤ oc.new_q_score ∧ oc.new_q_score ≤ k.points_possible) := by
  refine ⟨?_, ?_, ?_⟩
  · unfold gradeStudent
    by_cases h : q.correct_answers.length = 0 ∨ q.points_possible = 0
    · rw [if_pos h]
      exact ⟨le_refl 0, hpts⟩
    · rw [if_neg h]
      push_neg at h
      refine ⟨pyMax_zero_nonneg _, pyMax_zero_le ?_ hpts⟩
      have hlen : 0 < (q.correct_answers.length : ℚ) := by
        exact_mod_cast Nat.pos_of_ne_zero h.1
      have hcn : countCorrect q p ≤ q.correct_answers.length :=
        List.countP_le_length _
      have hc : (countCorrect q p : ℚ) ≤ (q.correct_answers.length : ℚ) := by
        exact_mod_cast hcn
      have hm : (0 : ℚ) ≤ (countMisclassified q p : ℚ) := Nat.cast_nonneg _
      have hdiv : ((countCorrect q p : ℚ) - (1 / 2) * (countMisclassified q p : ℚ)) /
          (q.correct_answers.length : ℚ) ≤ 1 := by
        rw [div_le_one hlen]
        linarith
      calc ((countCorrect q p : ℚ) - (1 / 2) * (countMisclassified q p : ℚ)) /
            (q.correct_answers.length : ℚ) * q.points_possible
          ≤ 1 * q.points_possible := mul_le_mul_of_nonneg_right hdiv hpts
        _ = q.points_possible := one_mul _
  · intro hcm
    unfold gradeStudent at hcm ⊢
    by_cases h : q.correct_answers.length = 0 ∨ q.points_possible = 0
    · rw [if_pos h] at hcm
      exact absurd hcm (by simp)
    · rw [if_neg h] at hcm ⊢
      push_neg at h
      have hcm2 : 2 * countCorrect q p < countMisclassified q p := hcm
      apply pyMax_zero_of_nonpos
      have hlen : 0 < (q.correct_answers.length : ℚ) := by
        exact_mod_cast Nat.pos_of_ne_zero h.1
      have h2 : 2 * (countCorrect q p : ℚ) + 1 ≤ (countMisclassified q p : ℚ) := by
        exact_mod_cast Nat.succ_le_of_lt hcm2
      have hnum : (countCorrect q p : ℚ) - (1 / 2) * (countMisclassified q p : ℚ) ≤ 0 := by
        linarith
      have hdiv : ((countCorrect q p : ℚ) - (1 / 2) * (countMisclassified q p : ℚ)) /
          (q.correct_answers.length : ℚ) ≤ 0 :=
        div_nonpos_iff.mpr (Or.inr ⟨hnum, hlen.le⟩)
      nlinarith [hdiv, hpts]
  · intro e k oc hk h
    obtain ⟨t, -, -, -, -, -, hq, hcle⟩ := gradeStudentEntry_shape e k oc h
    rw [hq]
    refine ⟨pyMax_zero_nonneg _, pyMax_zero_le ?_ hk⟩
    have hlen1 : (1 : ℕ) ≤ max 1 ((k.correct_map.map Prod.fst).dedup.length) :=
      le_max_left _ _
    have hlenq : (0 : ℚ) <
        ((max 1 ((k.correct_map.map Prod.fst).dedup.length) : ℕ) : ℚ) := by
      exact_mod_cast lt_of_lt_of_le Nat.zero_lt_one hlen1
    have hc : (oc.correct : ℚ) ≤
        ((max 1 ((k.correct_map.map Prod.fst).dedup.length) : ℕ) : ℚ) := by
      exact_mod_cast le_trans hcle (le_max_right _ _)
    have hm : (0 : ℚ) ≤ (oc.misclassified : ℚ) := Nat.cast_nonneg _
    have hdiv : ((oc.correct : ℚ) - (1 / 2) * (oc.misclassified : ℚ)) /
        ((max 1 ((k.correct_map.map Prod.fst).dedup.length) : ℕ) : ℚ) ≤ 1 := by
      rw [div_le_one hlenq]
      linarith
    calc ((oc.correct : ℚ) - (1 / 2) * (oc.misclassified : ℚ)) /
          ((max 1 ((k.correct_map.map Prod.fst).dedup.length) : ℕ) : ℚ) *
            k.points_possible
        ≤ 1 * k.points_possible := mul_le_mul_of_nonneg_right hdiv hk
      _ = k.points_possible := one_mul _

/-- Witness for C2 at the worked example. -/
theorem C2_score_clamped_witness :
    0 ≤ (gradeStudent exQ exPl).1 ∧ (gradeStudent exQ exPl).1 ≤ exQ.points_possible :=
  (C2_score_clamped exQ exPl (by norm_num [exQ])).1

/-! # C9 -/

/-- C9: whenever `points_possible = 0` or `correct_answers` is empty,
`grade_student` returns exactly `(0.0, 0, 0)`, discarding the computed
counts; in particular a student who places an item correctly under a
zero-point key is still reported with `correct = 0`. -/
theorem C9_degenerate_returns_zero (q : CategorizationQuestion)
    (p : List (String × String))
    (h : q.points_possible = 0 ∨ q.correct_answers = []) :
    gradeStudent q p = (0, 0, 0) ∧
    gradeStudent
      { item_id := "z", title := "t", points_possible := 0,
        correct_answers := [("a", "C")], true_distractors := [] }
      [("a", "C")] = (0, 0, 0) := by
  constructor
  · unfold gradeStudent
    have hcond : q.correct_answers.length = 0 ∨ q.points_possible = 0 := by
      rcases h with h | h
      · exact Or.inr h
      · exact Or.inl (by simp [h])
    rw [if_pos hcond]
  · simp [gradeStudent]

/-- Witness for C9: a zero-point key with a correctly placed item. -/
theorem C9_degenerate_returns_zero_witness :
    gradeStudent
      { item_id := "z", title := "t", points_possible := 0,
        correct_answers := [("a", "C")], true_distractors := [] }
      [("a", "C")] = (0, 0, 0) :=
  (C9_degenerate_returns_zero
    { item_id := "z", title := "t", points_possible := 0,
      correct_answers := [("a", "C")], true_distractors := [] }
    [("a", "C")] (Or.inl rfl)).1

/-! # C3 -/

/-- C3 counterexample: `parse_quiz_item` accepts a categorization item with
an empty scoring specification and returns a question with an empty
`correct_answers` map instead of failing. -/
theorem C3_counterexample :
    parseQuizItem emptyScoringItem =
      .ok (some
        { item_id := "item1", title := "Untitled Question", points_possible := 0,
          correct_answers := [], true_distractors := [] }) := by
  rfl

/-- C3 (amended): cat1.py `build_categorization_key` fails fatally whenever
the resulting `correct_map` is empty, so every key it returns has a nonempty
`correct_map`; categorization_grader.py `parse_quiz_item`, however, performs
no such check and returns a key with an empty `correct_map` for a
categorization item with an empty scoring specification. -/
theorem C3_empty_key_policy (item : Cat1Item) (k : CategorizationKey)
    (h : buildCategorizationKey item = .ok k) :
    k.correct_map ≠ [] ∧
    (∃ q, parseQuizItem emptyScoringItem = .ok (some q) ∧ q.correct_answers = []) := by
  constructor
  · simp only [buildCategorizationKey] at h
    split at h
    · exact absurd h (by simp)
    · rename_i hne
      simp only [Except.ok.injEq] at h
      subst h
      simpa using hne
  · exact ⟨_, rfl, rfl⟩

/-- Witness for C3 on a well-formed cat1.py item. -/
theorem C3_empty_key_policy_witness :
    ({ item_id := "I1", points_possible := 4, correct_map := [("Apple", "Fruit")],
        true_distractors := ["Rock"], title := "Item I1" } :
      CategorizationKey).correct_map ≠ [] ∧
    (∃ q, parseQuizItem emptyScoringItem = .ok (some q) ∧ q.correct_answers = []) :=
  C3_empty_key_policy exCat1Item
    { item_id := "I1", points_possible := 4, correct_map := [("Apple", "Fruit")],
      true_distractors := ["Rock"], title := "Item I1" } (by rfl)

/-! # C4 -/

/-- Inserting a fresh key appends the binding. -/
theorem alInsert_of_not_mem {α : Type} :
    ∀ (l : List (String × α)) (k : String) (v : α),
    (∀ p ∈ l, p.1 ≠ k) → alInsert l k v = l ++ [(k, v)]
  | [], _, _, _ => rfl
  | (k1, v1) :: t, k, v, h => by
    simp only [alInsert]
    rw [if_neg (h (k1, v1) (by simp))]
    rw [alInsert_of_not_mem t k v (fun p hp => h p (List.mem_cons_of_mem _ hp))]
    simp

/-- The inner loop of `parse_quiz_item` appends, in order, one binding per
referenced item UUID (resolved through the item pool), provided the produced
labels collide neither with each other nor with the accumulator. -/
theorem addScoringEntry_ok (dists : List (String × String)) (cl : String) :
    ∀ (us : List String) (ca ca2 : List (String × String)),
    addScoringEntry dists cl ca us = .ok ca2 →
    ((ca ++ us.filterMap
      (fun u => (alGet dists u).map (fun b => (pyStrip b, cl)))).map Prod.fst).Nodup →
    ca2 = ca ++ us.filterMap (fun u => (alGet dists u).map (fun b => (pyStrip b, cl)))
  | [], ca, ca2, h, _ => by
    simp only [addScoringEntry] at h
    simp only [Except.ok.injEq] at h
    simp [h]
  | u :: us, ca, ca2, h, hnd => by
    simp only [addScoringEntry] at h
    cases hg : alGet dists u with
    | none => rw [hg] at h; exact absurd h (by simp)
    | some b =>
      simp only [hg] at h
      have hfm : (u :: us).filterMap
          (fun u => (alGet dists u).map (fun b => (pyStrip b, cl))) =
          (pyStrip b, cl) :: us.filterMap
            (fun u => (alGet dists u).map (fun b => (pyStrip b, cl))) := by
        simp [List.filterMap_cons, hg]
      rw [hfm] at hnd
      have hfresh : ∀ p ∈ ca, p.1 ≠ pyStrip b := by
        intro p hp
        have hmap : ((ca ++ (pyStrip b, cl) :: us.filterMap
            (fun u => (alGet dists u).map (fun b => (pyStrip b, cl)))).map
              Prod.fst) =
            ca.map Prod.fst ++ pyStrip b :: (us.filterMap
              (fun u => (alGet dists u).map (fun b => (pyStrip b, cl)))).map
                Prod.fst := by
          simp
        rw [hmap] at hnd
        obtain ⟨-, -, hdisj⟩ := List.nodup_append.mp hnd
        intro hpk
        exact hdisj (a := p.1) (List.mem_map_of_mem _ hp) (by simp [hpk])
      have hins : alInsert ca (pyStrip b) cl = ca ++ [(pyStrip b, cl)] :=
        alInsert_of_not_mem ca (pyStrip b) cl hfresh
      rw [hins] at h
      have hnd2 : (((ca ++ [(pyStrip b, cl)]) ++ us.filterMap
          (fun u => (alGet dists u).map (fun b => (pyStrip b, cl)))).map
            Prod.fst).Nodup := by
        rw [List.append_assoc]
        simpa using hnd
      have := addScoringEntry_ok dists cl us (ca ++ [(pyStrip b, cl)]) ca2 h hnd2
      rw [this, hfm, List.append_assoc]
      simp

/-- The outer loop of `parse_quiz_item`: on success the correct-answer map
is the accumulator followed by the pairs derived from the scoring
specification (under label freshness), and the referenced-UUID accumulator
collects exactly the specification's item UUIDs in order. -/
theorem buildCorrectAnswers_ok (cats dists : List (String × String)) :
    ∀ (es : List ScoringEntry) (ca : List (String × String)) (refd : List String)
      (ca2 : List (String × String)) (refd2 : List String),
    buildCorrectAnswers cats dists es (ca, refd) = .ok (ca2, refd2) →
    ((ca ++ specPairs cats dists es).map Prod.fst).Nodup →
    ca2 = ca ++ specPairs cats dists es ∧ refd2 = refd ++ referencedUuids es
  | [], ca, refd, ca2, refd2, h, _ => by
    simp only [buildCorrectAnswers] at h
    simp only [Except.ok.injEq, Prod.mk.injEq] at h
    simp [specPairs, referencedUuids, h.1.symm, h.2.symm]
  | e :: es, ca, refd, ca2, refd2, h, hnd => by
    simp only [buildCorrectAnswers] at h
    cases hg : alGet cats e.id with
    | none => rw [hg] at h; exact absurd h (by simp)
    | some cb =>
      simp only [hg] at h
      cases ha : addScoringEntry dists (pyStrip cb) ca e.value with
      | error msg => simp only [ha] at h; exact absurd h (by simp)
      | ok ca3 =>
        simp only [ha] at h
        have hsp : specPairs cats dists (e :: es) =
            e.value.filterMap
              (fun u => (alGet dists u).map (fun b => (pyStrip b, pyStrip cb))) ++
            specPairs cats dists es := by
          simp [specPairs, hg]
        rw [hsp] at hnd
        have hnd1 : ((ca ++ e.value.filterMap
            (fun u => (alGet dists u).map (fun b => (pyStrip b, pyStrip cb)))).map
              Prod.fst).Nodup := by
          have hsub : (ca ++ e.value.filterMap
              (fun u => (alGet dists u).map (fun b => (pyStrip b, pyStrip cb)))).Sublist
              ((ca ++ e.value.filterMap
                (fun u => (alGet dists u).map (fun b => (pyStrip b, pyStrip cb)))) ++
                specPairs cats dists es) := List.sublist_append_left _ _
          have := (hsub.map Prod.fst).nodup ?_
          · exact this
          · rw [← List.append_assoc] at hnd
            exact hnd
        have hca3 := addScoringEntry_ok dists (pyStrip cb) e.value ca ca3 ha hnd1
        have hnd2 : (((ca ++ e.value.filterMap
            (fun u => (alGet dists u).map (fun b => (pyStrip b, pyStrip cb)))) ++
            specPairs cats dists es).map Prod.fst).Nodup := by
          rw [List.append_assoc]
          exact hnd
        rw [← hca3] at hnd2
        obtain ⟨h1, h2⟩ :=
          buildCorrectAnswers_ok cats dists es ca3 (refd ++ e.value) ca2 refd2 h hnd2
        constructor
        · rw [h1, hca3, hsp, List.append_assoc]
        · rw [h2, List.append_assoc]
          simp [referencedUuids]

/-- C4: on success, `parse_quiz_item` records in `correct_answers` exactly
the item-label -> category-label pairs derived from the scoring
specification, in order (under freshness of the derived labels, since a
repeated label would be overwritten), and sets `true_distractors` to exactly
the labels of item-pool entries never referenced by the scoring
specification; on the spec's example (categories U1 -> Fruit, pool
U2 -> Apple and U3 -> Rock, scoring [U1 -> [U2]]) both variants produce
`correct_map = [(Apple, Fruit)]` and `true_distractors = [Rock]`. -/
theorem C4_key_construction (item : QuizItem) (q : CategorizationQuestion)
    (hok : parseQuizItem item = .ok (some q))
    (hnd : ((specPairs item.entry.categories item.entry.distractors
      item.entry.scoring_value).map Prod.fst).Nodup) :
    q.correct_answers =
      specPairs item.entry.categories item.entry.distractors
        item.entry.scoring_value ∧
    q.true_distractors =
      ((item.entry.distractors.filter
        (fun p => !(referencedUuids item.entry.scoring_value).contains p.1)).map
        (fun p => pyStrip p.2)).dedup ∧
    parseQuizItem exQuizItem = .ok (some
      { item_id := "I1", title := "Untitled Question", points_possible := 4,
        correct_answers := [("Apple", "Fruit")], true_distractors := ["Rock"] }) ∧
    buildCategorizationKey exCat1Item = .ok
      { item_id := "I1", points_possible := 4, correct_map := [("Apple", "Fruit")],
        true_distractors := ["Rock"], title := "Item I1" } := by
  simp only [parseQuizItem] at hok
  by_cases hslug : item.entry.interaction_type_slug ≠ some "categorization"
  · rw [if_pos hslug] at hok
    exact absurd hok (by simp)
  · rw [if_neg hslug] at hok
    cases hb : buildCorrectAnswers item.entry.categories item.entry.distractors
        item.entry.scoring_value ([], []) with
    | error msg => rw [hb] at hok; exact absurd hok (by simp)
    | ok st =>
      obtain ⟨ca, refd⟩ := st
      rw [hb] at hok
      simp only [Except.ok.injEq, Option.some.injEq] at hok
      subst hok
      obtain ⟨hca, hrefd⟩ :=
        buildCorrectAnswers_ok item.entry.categories item.entry.distractors
          item.entry.scoring_value [] [] ca refd hb (by simpa using hnd)
      refine ⟨by simpa using hca, ?_, rfl, rfl⟩
      show (((item.entry.distractors.filter
          (fun p => !refd.contains p.1)).map (fun p => pyStrip p.2)).dedup) = _
      rw [hrefd]
      simp

/-- Witness for C4 at the spec's key-construction example. -/
theorem C4_key_construction_witness :
    ({ item_id := "I1", title := "Untitled Question", points_possible := 4,
        correct_answers := [("Apple", "Fruit")], true_distractors := ["Rock"] } :
      CategorizationQuestion).correct_answers =
      specPairs exQuizItem.entry.categories exQuizItem.entry.distractors
        exQuizItem.entry.scoring_value :=
  (C4_key_construction exQuizItem
    { item_id := "I1", title := "Untitled Question", points_possible := 4,
      correct_answers := [("Apple", "Fruit")], true_distractors := ["Rock"] }
    (by rfl) (by decide)).1

/-! # C5 -/

/-- Inside brackets the depth stays positive, so the separator never splits:
folding the scan over bracket-free characters at nonzero depth only extends
the buffer. -/
theorem foldl_stlStep_no_bracket (sep : Char) :
    ∀ (inner : List Char) (out : List (List Char)) (buf : List Char) (d : Nat),
    d ≠ 0 → (∀ c ∈ inner, c ≠ '[' ∧ c ≠ ']') →
    inner.foldl (stlStep sep) (out, buf, d) = (out, buf ++ inner, d)
  | [], out, buf, d, _, _ => by simp
  | c :: cs, out, buf, d, hd, hin => by
    have hc := hin c (by simp)
    have hstep : stlStep sep (out, buf, d) c = (out, buf ++ [c], d) := by
      simp only [stlStep]
      rw [if_neg hc.1, if_neg hc.2, if_neg (fun hand => hd hand.2)]
    rw [List.foldl_cons, hstep,
      foldl_stlStep_no_bracket sep cs out (buf ++ [c]) d hd
        (fun x hx => hin x (List.mem_cons_of_mem _ hx))]
    simp

/-- A single bracketed group with no nested brackets is never fragmented by
`split_top_level`, whatever separators it contains. -/
theorem splitTopLevel_bracketed (inner : List Char)
    (h : ∀ c ∈ inner, c ≠ '[' ∧ c ≠ ']') :
    splitTopLevel ('[' :: (inner ++ [']'])) ',' = ['[' :: (inner ++ [']'])] := by
  have h0 : stlStep ',' ([], [], 0) '[' = ([], ['['], 1) := by decide
  have h2 : stlStep ',' ([], ['['] ++ inner, 1) ']' = ([], (['['] ++ inner) ++ [']'], 0) := by
    simp [stlStep]
  simp only [splitTopLevel, List.foldl_cons, List.foldl_append, h0]
  rw [foldl_stlStep_no_bracket ',' inner [] ['['] 1 (by simp) h]
  rw [h2]
  simp

/-- C5 counterexample: `parse_student_answer` splits the item list naively on
commas, so an item label with an embedded comma inside nested brackets is
fragmented into two items instead of being parsed as the single label. -/
theorem C5_counterexample :
    parseStudentAnswer "Cat1 => [a[x,y]]" = [("a[x", "Cat1"), ("y", "Cat1")] ∧
    parseStudentAnswer "Cat1 => [a[x,y]]" ≠ [("a[x,y]", "Cat1")] := by
  decide

/-- C5 (amended): both parsers agree with the worked example
`Cat1 => [a,b], Cat2 => [c]`; cat1.py splits segments and item lists with
the bracket-depth-aware `split_top_level`, so an embedded comma inside
brackets never fragments an item (the segment regex still truncates the
capture at the first closing bracket); categorization_grader.py, however,
splits item lists naively on commas. -/
theorem C5_parsing_depth_awareness :
    parseStudentAnswer "Cat1 => [a,b], Cat2 => [c]" =
      [("a", "Cat1"), ("b", "Cat1"), ("c", "Cat2")] ∧
    parseAnswerMapping "Cat1 => [a,b], Cat2 => [c]" =
      [("Cat1", ["a", "b"]), ("Cat2", ["c"])] ∧
    parseAnswerMapping "Cat1 => [a[x,y]]" = [("Cat1", ["a[x,y"])] ∧
    (∀ inner : List Char, (∀ c ∈ inner, c ≠ '[' ∧ c ≠ ']') →
      splitTopLevel ('[' :: (inner ++ [']'])) ',' = ['[' :: (inner ++ [']'])]) :=
  ⟨by decide, by decide, by decide, splitTopLevel_bracketed⟩

/-- Witness for C5 on the label fragment `x,y`. -/
theorem C5_parsing_depth_awareness_witness :
    splitTopLevel ('[' :: (String.toList "x,y" ++ [']'])) ',' =
      ['[' :: (String.toList "x,y" ++ [']'])] :=
  C5_parsing_depth_awareness.2.2.2 (String.toList "x,y") (by decide)

/-! # C8 -/

/-- C8: a segment that fails the `label => [list]` shape is silently
skipped by `parse_answer_mapping`: the result is the fold over the remaining
segments, no error is raised (the function is total), and both parsers drop
a malformed leading segment on the concrete input
`garbage, Cat2 => [c]`. -/
theorem C8_malformed_segment_skipped (s : String) (pre post : List (List Char))
    (bad : List Char)
    (hsplit : splitTopLevel s.data ',' = pre ++ bad :: post)
    (hbad : matchAnswerRE bad = none) :
    parseAnswerMapping s = (pre ++ post).foldl parsePart [] ∧
    parseAnswerMapping "garbage, Cat2 => [c]" = [("Cat2", ["c"])] ∧
    parseStudentAnswer "garbage, Cat2 => [c]" = [("c", "Cat2")] := by
  refine ⟨?_, by decide, by decide⟩
  have hs : s ≠ "" := by
    intro he
    subst he
    have hempty : splitTopLevel ("" : String).data ',' = [] := by decide
    rw [hempty] at hsplit
    exact absurd hsplit.symm (by simp)
  unfold parseAnswerMapping
  rw [if_neg hs, hsplit, List.foldl_append, List.foldl_cons, List.foldl_append]
  simp only [parsePart, hbad]

/-! # C6 -/

/-- A non-terminal in-time observation makes the loop sleep and poll again. -/
theorem pollProgress_cons_continue (timeout : ℚ) (st : Option String) (el : ℚ)
    (rest : List (Option String × ℚ)) (h1 : st ≠ some "completed")
    (h2 : st ≠ some "failed") (h3 : el ≤ timeout) :
    pollProgress timeout ((st, el) :: rest) = (pollProgress timeout rest).bump := by
  simp only [pollProgress]
  rw [if_neg h1, if_neg h2, if_neg (not_lt.mpr h3)]

/-- A `completed` observation returns immediately. -/
theorem pollProgress_cons_completed (timeout el : ℚ)
    (rest : List (Option String × ℚ)) :
    pollProgress timeout ((some "completed", el) :: rest) = .completed 1 := by
  simp [pollProgress]

/-- The first observation whose elapsed time exceeds the timeout (all earlier
ones non-terminal and in time) makes the loop abort after exactly
`front.length + 1` polls, whatever observations would follow. -/
theorem pollProgress_timedOut (timeout : ℚ) :
    ∀ (front : List (Option String × ℚ)) (cur : Option String × ℚ)
      (rest : List (Option String × ℚ)),
    (∀ p ∈ front ++ [cur], p.1 ≠ some "completed" ∧ p.1 ≠ some "failed") →
    (∀ p ∈ front, p.2 ≤ timeout) →
    timeout < cur.2 →
    pollProgress timeout (front ++ cur :: rest) = .timedOut (front.length + 1)
  | [], cur, rest, hst, _, htime => by
    obtain ⟨h1, h2⟩ := hst cur (by simp)
    obtain ⟨st, el⟩ := cur
    simp only [List.nil_append, pollProgress]
    rw [if_neg h1, if_neg h2, if_pos htime]
    rfl
  | f :: front, cur, rest, hst, htimes, htime => by
    obtain ⟨h1, h2⟩ := hst f (by simp)
    obtain ⟨st, el⟩ := f
    rw [List.cons_append,
      pollProgress_cons_continue timeout st el _ h1 h2 (htimes (st, el) (by simp)),
      pollProgress_timedOut timeout front cur rest
        (fun p hp => hst p (by simp at hp ⊢; tauto))
        (fun p hp => htimes p (List.mem_cons_of_mem _ hp)) htime]
    rfl

/-- C6 counterexample: cat1.py's polling interval default is 3 seconds, not
the 2 seconds the claim states for the polling loop. -/
theorem C6_counterexample :
    cat1PollIntervalDefault = 3 ∧ cat1PollIntervalDefault ≠ 2 := by
  norm_num [cat1PollIntervalDefault]

/-- C6 (amended): categorization_grader.py polls at a fixed 2-second
interval and cat1.py at a default 3-second interval, both with a 900-second
wall-clock timeout; a `[queued, running, completed]` status sequence returns
on the third poll in both loops; `failed` stops polling immediately (fatal in
categorization_grader.py, returned to a caller that raises in cat1.py); and
once the elapsed time at a non-terminal poll exceeds the timeout the loop
aborts with no further polls. -/
theorem C6_polling_protocol (t1 t2 t3 : ℚ) (h1 : t1 ≤ REPORT_TIMEOUT)
    (h2 : t2 ≤ REPORT_TIMEOUT) :
    POLL_INTERVAL = 2 ∧ REPORT_TIMEOUT = 900 ∧
    cat1PollIntervalDefault = 3 ∧ cat1PollTimeoutDefault = 900 ∧
    pollProgress REPORT_TIMEOUT
      [(some "queued", t1), (some "running", t2), (some "completed", t3)] =
        .completed 3 ∧
    cat1PollProgress cat1PollTimeoutDefault
      [(some "queued", t1), (some "running", t2), (some "completed", t3)] =
        .returned (some "completed") 3 ∧
    (∀ (timeout el : ℚ) (rest : List (Option String × ℚ)),
      pollProgress timeout ((some "failed", el) :: rest) = .failed 1) ∧
    (∀ (timeout : ℚ) (front : List (Option String × ℚ))
        (cur : Option String × ℚ) (rest : List (Option String × ℚ)),
      (∀ p ∈ front ++ [cur], p.1 ≠ some "completed" ∧ p.1 ≠ some "failed") →
      (∀ p ∈ front, p.2 ≤ timeout) →
      timeout < cur.2 →
      pollProgress timeout (front ++ cur :: rest) = .timedOut (front.length + 1)) := by
  have ht900 : cat1PollTimeoutDefault = REPORT_TIMEOUT := by
    norm_num [cat1PollTimeoutDefault, REPORT_TIMEOUT]
  refine ⟨rfl, rfl, rfl, rfl, ?_, ?_, ?_, ?_⟩
  · rw [pollProgress_cons_continue _ _ _ _ (by simp) (by simp) h1,
      pollProgress_cons_continue _ _ _ _ (by simp) (by simp) h2,
      pollProgress_cons_completed]
    rfl
  · rw [ht900]
    have s1 : cat1PollProgress REPORT_TIMEOUT
        [(some "queued", t1), (some "running", t2), (some "completed", t3)] =
        (cat1PollProgress REPORT_TIMEOUT
          [(some "running", t2), (some "completed", t3)]).bump := by
      simp only [cat1PollProgress]
      rw [if_neg (by simp), if_neg (not_lt.mpr h1)]
    have s2 : cat1PollProgress REPORT_TIMEOUT
        [(some "running", t2), (some "completed", t3)] =
        (cat1PollProgress REPORT_TIMEOUT [(some "completed", t3)]).bump := by
      simp only [cat1PollProgress]
      rw [if_neg (by simp), if_neg (not_lt.mpr h2)]
    have s3 : cat1PollProgress REPORT_TIMEOUT [(some "completed", t3)] =
        .returned (some "completed") 1 := by
      simp [cat1PollProgress]
    rw [s1, s2, s3]
    rfl
  · intro timeout el rest
    simp [pollProgress]
  · exact fun timeout front cur rest hst htimes htime =>
      pollProgress_timedOut timeout front cur rest hst htimes htime

/-- Witness for C6 with the default 2-second cadence. -/
theorem C6_polling_protocol_witness :
    pollProgress REPORT_TIMEOUT
      [(some "queued", 2), (some "running", 4), (some "completed", 6)] =
      .completed 3 ∧
    pollProgress 900 [(some "running", 901)] = .timedOut 1 := by
  have h := C6_polling_protocol 2 4 6 (by norm_num [REPORT_TIMEOUT])
    (by norm_num [REPORT_TIMEOUT])
  refine ⟨h.2.2.2.2.1, ?_⟩
  have h2 := h.2.2.2.2.2.2.2 900 [] (some "running", 901) []
    (by simp) (by simp) (by norm_num)
  simpa using h2

/-! # C7 -/

/-- C7 counterexample: a completed-progress payload whose only download
location is the nested attachment object's URL is resolved by
categorization_grader.py through alternative (b), but cat1.py's
`resolve_report_download` has no nested-attachment branch and fails
fatally on the same payload. -/
theorem C7_counterexample :
    resolveDownloadUrl (fun _ => none) (some attOnlyResults) = .ok (some "X") ∧
    resolveReportDownload (fun _ => none) (some attOnlyResults) =
      .error "No results.url or attachment_id in progress results." :=
  ⟨rfl, rfl⟩

/-- C7 (amended): categorization_grader.py `resolve_download_url` tries, in
order, (a) the direct `results.url`, (b) the nested attachment's
`url`/`download_url`, (c) `attachment_id`/`file_id` resolved through the
file-metadata endpoint, and fails fatally when none resolves (also when the
metadata request fails); cat1.py `resolve_report_download` tries only (a)
the direct URL and then (c) an `attachment_id`/`id` metadata lookup, and
fails fatally when neither is present. -/
theorem C7_resolution_chain (fileLookup : Nat → Option FileMeta)
    (res : ResultsObj) :
    (∀ u, strTruthy res.url = some u →
      resolveDownloadUrl fileLookup (some res) = .ok (some u)) ∧
    (strTruthy res.url = none → ∀ u,
      strTruthy (pyOrStr (res.attachment.getD {}).url
        (res.attachment.getD {}).download_url) = some u →
      resolveDownloadUrl fileLookup (some res) = .ok (some u)) ∧
    (strTruthy res.url = none →
      strTruthy (pyOrStr (res.attachment.getD {}).url
        (res.attachment.getD {}).download_url) = none →
      ∀ fid meta, natTruthy (natOr res.attachment_id res.file_id) = some fid →
      fileLookup fid = some meta →
      resolveDownloadUrl fileLookup (some res) =
        .ok (pyOrStr meta.url meta.download_url)) ∧
    (strTruthy res.url = none →
      strTruthy (pyOrStr (res.attachment.getD {}).url
        (res.attachment.getD {}).download_url) = none →
      natTruthy (natOr res.attachment_id res.file_id) = none →
      resolveDownloadUrl fileLookup (some res) =
        .error "Could not resolve download URL") ∧
    (∀ u, strTruthy res.url = some u →
      resolveReportDownload fileLookup (some res) = .ok u) ∧
    (strTruthy res.url = none →
      natTruthy (natOr res.attachment_id res.id) = none →
      resolveReportDownload fileLookup (some res) =
        .error "No results.url or attachment_id in progress results.") := by
  refine ⟨?_, ?_, ?_, ?_, ?_, ?_⟩
  · intro u hu
    simp only [resolveDownloadUrl, Option.getD_some, hu]
  · intro h0 u hu
    simp only [resolveDownloadUrl, Option.getD_some, h0, hu]
  · intro h0 h1 fid meta hfid hmeta
    simp only [resolveDownloadUrl, Option.getD_some, h0, h1, hfid, hmeta]
  · intro h0 h1 h2
    simp only [resolveDownloadUrl, Option.getD_some, h0, h1, h2]
  · intro u hu
    simp only [resolveReportDownload, Option.getD_some, hu]
  · intro h0 h2
    simp only [resolveReportDownload, Option.getD_some, h0, h2]

/-- Witness for C7 on a payload carrying a direct URL. -/
theorem C7_resolution_chain_witness :
    resolveDownloadUrl (fun _ => none) (some { url := some "U" }) = .ok (some "U") :=
  (C7_resolution_chain (fun _ => none) { url := some "U" }).1 "U" rfl

/-! # C10 -/

/-- C10: the total grade handed to the submissions update equals
`old_total - old_question_score + new_question_score`, where both old values
are read from the downloaded report (the summary score and the target item
response's score): only the target question's prior contribution is replaced
inside the student's total.  Stated for the per-student step of
categorization_grader.py `main` and for cat1.py `grade_student_entry`. -/
theorem C10_total_grade_replacement :
    (∀ q qid st sg, processStudent q qid st = some sg →
      sg.new_total_grade =
        sg.old_total_grade - sg.old_question_grade + sg.new_question_grade ∧
      sg.old_total_grade = st.summary_score.getD 0 ∧
      ∃ resp ∈ st.item_responses, resp.item_id = qid ∧
        sg.old_question_grade = resp.score.getD 0 ∧
        sg.new_question_grade =
          (gradeStudent q (parseStudentAnswer (resp.answer.getD ""))).1) ∧
    (∀ e k oc, gradeStudentEntry e k = some oc →
      oc.new_total = oc.old_total - oc.old_q_score + oc.new_q_score ∧
      oc.old_total = ((e.summary.getD {}).score).getD 0 ∧
      ∃ resp ∈ e.item_responses, resp.item_id = k.item_id ∧
        oc.old_q_score = resp.score.getD 0) := by
  constructor
  · intro q qid st sg h
    obtain ⟨resp, hmem, hid, hoq, hot, hnq, -, -, hnt⟩ :=
      processStudent_shape q qid st sg h
    exact ⟨hnt, hot, resp, hmem, hid, hoq, hnq⟩
  · intro e k oc h
    obtain ⟨t, hmem, hid, hoq, hot, hnt, -, -⟩ := gradeStudentEntry_shape e k oc h
    exact ⟨hnt, hot, t, hmem, hid, hoq⟩

/-- Witness for C10 on the worked-example report entry. -/
theorem C10_total_grade_replacement_witness :
    ∃ resp ∈ exReportEntry.item_responses, resp.item_id = exKey.item_id ∧
      (1 : ℚ) = resp.score.getD 0 := by
  have hoc : gradeStudentEntry exReportEntry exKey = some
      { user_id := 42, name := "Student A", attempt := 1, old_q_score := 1,
        new_q_score := 0, old_total := 7, new_total := 6, correct := 0,
        misclassified := 0 } := by
    simp [gradeStudentEntry, exReportEntry, exKey, parseAnswerMapping,
      flattenPlacements, strTruthy, natTruthy, alGet, List.countP,
      List.countP.go, List.find?]
    norm_num [pyMax]
  obtain ⟨-, -, resp, hmem, hid, hoq⟩ :=
    C10_total_grade_replacement.2 exReportEntry exKey _ hoc
  exact ⟨resp, hmem, hid, hoq⟩

/-- Witness for C8 at the concrete malformed input. -/
theorem C8_malformed_segment_skipped_witness :
    parseAnswerMapping "garbage, Cat2 => [c]" =
      (([] : List (List Char)) ++ [String.toList " Cat2 => [c]"]).foldl parsePart [] :=
  (C8_malformed_segment_skipped "garbage, Cat2 => [c]" []
    [String.toList " Cat2 => [c]"] (String.toList "garbage")
    (by decide) (by decide)).1
